import Mathlib

/-
Verification of the indicator scoring, aggregation and interpretation layer
of the EU-US-CN Fear and Greed index repository.

Scores are modelled as rationals (the Python code computes with floats, but
every formula under scrutiny is exact rational arithmetic on its inputs);
the one logistic (sigmoid) formula is modelled over the reals with Real.exp.
Functions that raise exceptions in Python are modelled with Option, where
none stands for a raised error and some for a normal return.
-/

/-- Embeds interpret_score from src/utils/fear_greed_calculator.py lines 19-30:
successive upper bounds 25, 45, 55, 75 tested with less-or-equal. -/
def utils_interpret_score (score : ℚ) : String :=
  if score ≤ 25 then "Extreme Fear"
  else if score ≤ 45 then "Fear"
  else if score ≤ 55 then "Neutral"
  else if score ≤ 75 then "Greed"
  else "Extreme Greed"

/-- Embeds interpret_score from src/cn_fear_greed_index/fear_greed_index.py
lines 19-38: tests from the top with greater-or-equal. -/
def cn_interpret_score (score : ℚ) : String :=
  if 75 ≤ score then "Extreme Greed"
  else if 55 ≤ score then "Greed"
  else if 45 ≤ score then "Neutral"
  else if 25 ≤ score then "Fear"
  else "Extreme Fear"

/-- Embeds interpret_score from src/eu_fear_greed_index/fear_greed_index.py
lines 103-113: strict lower cuts at 25 and 45, inclusive upper cuts at 55 and 75. -/
def eu_interpret_score (score : ℚ) : String :=
  if score < 25 then "Extreme Fear"
  else if score < 45 then "Fear"
  else if score ≤ 55 then "Neutral"
  else if score ≤ 75 then "Greed"
  else "Extreme Greed"

/-- Embeds interpret_score from src/us_fear_greed_index/fear_greed_index.py
lines 102-112, which is textually identical to the EU variant. -/
def us_interpret_score (score : ℚ) : String :=
  if score < 25 then "Extreme Fear"
  else if score < 45 then "Fear"
  else if score ≤ 55 then "Neutral"
  else if score ≤ 75 then "Greed"
  else "Extreme Greed"

/-- C1 counterexample: the utils variant of interpret_score assigns the cut
point 25 to "Extreme Fear", not to "Fear" as the claim states for every
variant. -/
theorem c1_boundary_counterexample :
    utils_interpret_score 25 = "Extreme Fear" ∧ utils_interpret_score 25 ≠ "Fear" := by
  refine ⟨by norm_num [utils_interpret_score], ?_⟩
  norm_num [utils_interpret_score]
  decide

/-- C1 amended: the canonical boundary convention (25 to Fear, 45 and 55 to
Neutral, 75 to Greed) holds exactly for the EU and US variants of
interpret_score; the utils variant assigns 25 to Extreme Fear and 45 to Fear;
the CN variant assigns 55 to Greed and 75 to Extreme Greed. -/
theorem c1_boundary_amended :
    (eu_interpret_score 25 = "Fear" ∧ eu_interpret_score 45 = "Neutral" ∧
      eu_interpret_score 55 = "Neutral" ∧ eu_interpret_score 75 = "Greed") ∧
    (us_interpret_score 25 = "Fear" ∧ us_interpret_score 45 = "Neutral" ∧
      us_interpret_score 55 = "Neutral" ∧ us_interpret_score 75 = "Greed") ∧
    (utils_interpret_score 25 = "Extreme Fear" ∧ utils_interpret_score 45 = "Fear" ∧
      utils_interpret_score 55 = "Neutral" ∧ utils_interpret_score 75 = "Greed") ∧
    (cn_interpret_score 25 = "Fear" ∧ cn_interpret_score 45 = "Neutral" ∧
      cn_interpret_score 55 = "Greed" ∧ cn_interpret_score 75 = "Extreme Greed") := by
  refine ⟨⟨?_, ?_, ?_, ?_⟩, ⟨?_, ?_, ?_, ?_⟩, ⟨?_, ?_, ?_, ?_⟩, ⟨?_, ?_, ?_, ?_⟩⟩ <;>
    norm_num [eu_interpret_score, us_interpret_score, utils_interpret_score,
      cn_interpret_score]

/-- Embeds the aggregation np.mean(component_values) used by
calculate_cn_index, calculate_eu_index and calculate_us_index in
src/utils/fear_greed_calculator.py (lines 77-79 and analogues): the sum of
the list divided by its length. -/
def np_mean (l : List ℚ) : ℚ := l.sum / l.length

/-- Embeds the final score formula of get_cn_index in
src/cn_fear_greed_index/fear_greed_index.py lines 83-91: the six indicator
scores are summed and divided by 6. -/
def get_cn_index_score (momentum volatility safe_haven junk_bond rsi ma_deviation : ℚ) : ℚ :=
  (momentum + volatility + safe_haven + junk_bond + rsi + ma_deviation) / 6

/-- Embeds the accumulation loop of get_final_index in
src/eu_fear_greed_index/fear_greed_index.py lines 82-93: each pair is a
score together with its weight; pairs whose weight is not positive are
skipped, the others contribute score times weight to total_score and weight
to total_weight. -/
def eu_totals : List (ℚ × ℚ) → ℚ × ℚ
  | [] => (0, 0)
  | sw :: rest =>
    let t := eu_totals rest
    if 0 < sw.2 then (t.1 + sw.1 * sw.2, t.2 + sw.2) else t

/-- Embeds the final normalisation of get_final_index in
src/eu_fear_greed_index/fear_greed_index.py lines 95-99: total_score divided
by total_weight when the latter is positive, otherwise the neutral default 50. -/
def eu_get_final_index_value (items : List (ℚ × ℚ)) : ℚ :=
  let t := eu_totals items
  if 0 < t.2 then t.1 / t.2 else 50

/-- Embeds the result shape of calculate_cn_index in
src/utils/fear_greed_calculator.py lines 54-93: on a normal run (some) the
score is the mean of the component list and the interpretation is obtained
from utils_interpret_score; when any exception escapes the body (none) the
except branch on lines 91-93 returns score 50.0 with interpretation Neutral. -/
def utils_calculate_cn_index (components : Option (List ℚ)) : ℚ × String :=
  match components with
  | some cs => (np_mean cs, utils_interpret_score (np_mean cs))
  | none => (50, "Neutral")

/-- Rounds a rational to two decimal places, used to state the 59.17 scenario. -/
def roundTo2 (x : ℚ) : ℚ := (⌊x * 100 + 1 / 2⌋ : ℤ) / 100

/-- Helper: over a list of scores that all carry the same positive weight w,
the EU accumulation loop totals w times the sum of scores and w times the
number of scores. -/
theorem eu_totals_const_weight (w : ℚ) (hw : 0 < w) :
    ∀ scores : List ℚ,
      eu_totals (scores.map fun s => (s, w)) = (w * scores.sum, w * scores.length) := by
  intro scores
  induction scores with
  | nil => simp [eu_totals]
  | cons a t ih =>
    simp only [List.map_cons, eu_totals, ih, List.sum_cons, List.length_cons]
    rw [if_pos hw]
    push_cast
    simp only [Prod.mk.injEq]
    refine ⟨by ring, by ring⟩

/-- C2: the CN final index is the unweighted mean of exactly the six
indicator scores; the EU aggregation over any nonempty list of equally and
positively weighted scores is the unweighted mean of exactly those scores;
and the scenario holds: the six scores 75, 40, 60, 55, 50, 75 yield a final
index of 59.17 once rounded to two decimals, which every interpret variant
maps to Greed. -/
theorem c2_final_index_is_mean :
    (∀ a b c d e f : ℚ, get_cn_index_score a b c d e f = np_mean [a, b, c, d, e, f]) ∧
    (∀ (scores : List ℚ) (w : ℚ), 0 < w → scores ≠ [] →
      eu_get_final_index_value (scores.map fun s => (s, w)) = np_mean scores) ∧
    roundTo2 (np_mean [75, 40, 60, 55, 50, 75]) = 5917 / 100 ∧
    utils_interpret_score (5917 / 100) = "Greed" ∧
    eu_interpret_score (5917 / 100) = "Greed" ∧
    cn_interpret_score (5917 / 100) = "Greed" := by
  refine ⟨?_, ?_, ?_, ?_, ?_, ?_⟩
  · intro a b c d e f
    simp [get_cn_index_score, np_mean]
    ring
  · intro scores w hw hne
    have hlen : 0 < (scores.length : ℚ) := by
      have : 0 < scores.length := List.length_pos.mpr hne
      exact_mod_cast this
    simp only [eu_get_final_index_value, eu_totals_const_weight w hw, np_mean]
    rw [if_pos (by positivity)]
    rw [mul_div_mul_left _ _ (ne_of_gt hw)]
  · norm_num [roundTo2, np_mean]
  · norm_num [utils_interpret_score]
  · norm_num [eu_interpret_score]
  · norm_num [cn_interpret_score]

/-- C2 witness: the EU aggregation applied to the six scenario scores with
the equal weight one sixth equals their unweighted mean. -/
theorem c2_final_index_is_mean_witness :
    eu_get_final_index_value (([75, 40, 60, 55, 50, 75] : List ℚ).map fun s => (s, 1 / 6)) =
      np_mean [75, 40, 60, 55, 50, 75] :=
  c2_final_index_is_mean.2.1 [75, 40, 60, 55, 50, 75] (1 / 6) (by norm_num) (by simp)

/-- C3: on total failure the code returns the neutral default instead of
failing. The except branch of calculate_cn_index returns score 50 with
interpretation Neutral as a normal value, and get_final_index returns 50
when the total weight of successful indicators is zero, which every
interpret variant then labels Neutral. The claim (and the specification)
require an error or an unavailable result here, so this is recorded as a
code bug. -/
theorem c3_total_failure_defaults_to_neutral :
    utils_calculate_cn_index none = (50, "Neutral") ∧
    eu_get_final_index_value [] = 50 ∧
    eu_interpret_score 50 = "Neutral" ∧
    utils_interpret_score 50 = "Neutral" := by
  refine ⟨rfl, by norm_num [eu_get_final_index_value, eu_totals], ?_, ?_⟩
  · norm_num [eu_interpret_score]
  · norm_num [utils_interpret_score]

/-- Embeds BaseIndicator.normalize_score from src/indicators/base_indicator.py
lines 28-47: clip the raw score to the expected range, rescale to 0-100, then
clamp the result to 0-100 again. -/
def normalize_score (raw_score min_val max_val : ℚ) : ℚ :=
  max 0 (min 100 ((max min_val (min max_val raw_score) - min_val) / (max_val - min_val) * 100))

/-- Embeds the score mapping of calculate_junk_bond_score in
src/us_fear_greed_index/junk_bond_indicator.py lines 76-79 as a function of
the return difference: 50 plus the difference scaled by max_diff_scale = 2.0
times 50, clipped by np.clip to the 0-100 range. -/
def us_junk_score_of_diff (difference : ℚ) : ℚ :=
  min 100 (max 0 (50 + difference / 2 * 50))

/-- Embeds calculate_junk_bond_score from
src/us_fear_greed_index/junk_bond_indicator.py lines 68-79 on the four
extracted prices: each percentage return falls back to 0 when its start
price is zero (lines 69-70), and the score is us_junk_score_of_diff of the
return difference. -/
def us_calculate_junk_bond_score (hy_start hy_end ig_start ig_end : ℚ) : ℚ :=
  us_junk_score_of_diff
    ((if hy_start ≠ 0 then (hy_end / hy_start - 1) * 100 else 0) -
      (if ig_start ≠ 0 then (ig_end / ig_start - 1) * 100 else 0))

/-- Embeds calculate_junk_bond_score from
src/eu_fear_greed_index/junk_bond_indicator.py lines 67-74 on the four
extracted prices: returns fall back to 0 on a zero start price, and the
score (hy_return - ig_return) / 100 * 50 + 50 is returned without any clamp. -/
def eu_calculate_junk_bond_score (hy_start hy_end ig_start ig_end : ℚ) : ℚ :=
  ((if hy_start ≠ 0 then (hy_end / hy_start - 1) * 100 else 0) -
      (if ig_start ≠ 0 then (ig_end / ig_start - 1) * 100 else 0)) / 100 * 50 + 50

/-- Embeds the deviation-to-score mapping of MADeviationIndicator.calculate in
src/indicators/ma_deviation_indicator.py lines 67-74: deviations at or below
minus ten percent give 0, at or above ten percent give 100, otherwise linear
interpolation 50 + deviation * 5. -/
def ma_deviation_to_score (deviation : ℚ) : ℚ :=
  if deviation ≤ -10 then 0
  else if 10 ≤ deviation then 100
  else 50 + deviation * 5

/-- Embeds MADeviationIndicator.calculate from
src/indicators/ma_deviation_indicator.py lines 61-74 on the extracted price
and 50-day moving average: a zero moving average raises ValueError (none),
otherwise the percentage deviation is mapped through ma_deviation_to_score. -/
def MADeviationIndicator_calculate (current_price ma_50 : ℚ) : Option ℚ :=
  if ma_50 = 0 then none
  else some (ma_deviation_to_score ((current_price - ma_50) / ma_50 * 100))

/-- Embeds calculate_us_market_trend from src/utils/fear_greed_calculator.py
lines 549-570 on the extracted price and 200-day moving average: when the
moving average is not positive the deviation silently becomes 0 (lines
559-562), the score is 50 + deviation * 5 clamped to 0-100, and the function
always returns normally (some). -/
def calculate_us_market_trend (price ma200 : ℚ) : Option ℚ :=
  some (max 0 (min 100 (50 + (if 0 < ma200 then (price / ma200 - 1) * 100 else 0) * 5)))

/-- Embeds MomentumIndicator.calculate from
src/indicators/momentum_indicator.py lines 62-72 on the extracted momentum
and RSI values: base score 50 + momentum * 2.5, nudged up by 10 (capped at
100) when RSI is below 30, nudged down by 10 (floored at 0) when RSI is
above 70, and finally clamped to 0-100. -/
def momentum_calculate (momentum rsi : ℚ) : ℚ :=
  max 0 (min 100
    (if rsi < 30 then min 100 ((50 + momentum * 2.5) + 10)
     else if 70 < rsi then max 0 ((50 + momentum * 2.5) - 10)
     else 50 + momentum * 2.5))

/-- C4 counterexample: the EU junk bond calculator returns its score without
clamping; with a high yield price tripling while investment grade is flat it
returns 150, outside the 0-100 range the claim asserts for every calculator
that returns normally. -/
theorem c4_bounded_counterexample :
    eu_calculate_junk_bond_score 1 3 1 1 = 150 ∧
    ¬ eu_calculate_junk_bond_score 1 3 1 1 ≤ 100 := by
  norm_num [eu_calculate_junk_bond_score]

/-- C4 amended: the normalizer, the US junk bond score, the MA deviation
score and the momentum score always lie in the 0-100 range, and a final
index aggregated from six scores in that range stays in it; the EU junk bond
calculator however returns an unclamped score that can leave the range. -/
theorem c4_bounded_amended :
    (∀ raw_score min_val max_val : ℚ,
      0 ≤ normalize_score raw_score min_val max_val ∧
        normalize_score raw_score min_val max_val ≤ 100) ∧
    (∀ hs he is_ ie : ℚ,
      0 ≤ us_calculate_junk_bond_score hs he is_ ie ∧
        us_calculate_junk_bond_score hs he is_ ie ≤ 100) ∧
    (∀ deviation : ℚ,
      0 ≤ ma_deviation_to_score deviation ∧ ma_deviation_to_score deviation ≤ 100) ∧
    (∀ m r : ℚ, 0 ≤ momentum_calculate m r ∧ momentum_calculate m r ≤ 100) ∧
    (∀ a b c d e f : ℚ, (0 ≤ a ∧ a ≤ 100) → (0 ≤ b ∧ b ≤ 100) → (0 ≤ c ∧ c ≤ 100) →
      (0 ≤ d ∧ d ≤ 100) → (0 ≤ e ∧ e ≤ 100) → (0 ≤ f ∧ f ≤ 100) →
      0 ≤ get_cn_index_score a b c d e f ∧ get_cn_index_score a b c d e f ≤ 100) := by
  refine ⟨?_, ?_, ?_, ?_, ?_⟩
  · intro raw_score min_val max_val
    unfold normalize_score
    constructor
    · exact le_max_left 0 _
    · exact max_le (by norm_num) (min_le_left 100 _)
  · intro hs he is_ ie
    unfold us_calculate_junk_bond_score us_junk_score_of_diff
    constructor
    · exact le_min (by norm_num) (le_max_left 0 _)
    · exact min_le_left 100 _
  · intro deviation
    unfold ma_deviation_to_score
    split_ifs <;> constructor <;> linarith
  · intro m r
    unfold momentum_calculate
    constructor
    · exact le_max_left 0 _
    · exact max_le (by norm_num) (min_le_left 100 _)
  · intro a b c d e f ha hb hc hd he hf
    unfold get_cn_index_score
    obtain ⟨ha0, ha1⟩ := ha
    obtain ⟨hb0, hb1⟩ := hb
    obtain ⟨hc0, hc1⟩ := hc
    obtain ⟨hd0, hd1⟩ := hd
    obtain ⟨he0, he1⟩ := he
    obtain ⟨hf0, hf1⟩ := hf
    constructor <;> [positivity; linarith]

/-- C4 witness: the bound on the aggregated final index applied at six
concrete in-range scores. -/
theorem c4_bounded_amended_witness :
    0 ≤ get_cn_index_score 75 40 60 55 50 75 ∧ get_cn_index_score 75 40 60 55 50 75 ≤ 100 :=
  c4_bounded_amended.2.2.2.2 75 40 60 55 50 75 (by norm_num) (by norm_num) (by norm_num)
    (by norm_num) (by norm_num) (by norm_num)

/-- C5 counterexample: the utils market trend calculator does not raise on a
zero moving average; it silently substitutes deviation 0 and returns the
neutral score 50 as a normal value. -/
theorem c5_zero_denominator_counterexample :
    calculate_us_market_trend 100 0 = some 50 := by
  norm_num [calculate_us_market_trend]

/-- C5 amended: MADeviationIndicator.calculate raises an explicit error
(none) whenever the 50-day moving average is zero and otherwise returns the
deviation score; but the utils market trend calculator substitutes deviation
0 (score 50) when the 200-day moving average is not positive, and the US
junk bond calculator substitutes return 0 when a start price is zero, both
continuing normally. -/
theorem c5_zero_denominator_amended :
    (∀ price : ℚ, MADeviationIndicator_calculate price 0 = none) ∧
    (∀ price ma_50 : ℚ, ma_50 ≠ 0 → MADeviationIndicator_calculate price ma_50 =
      some (ma_deviation_to_score ((price - ma_50) / ma_50 * 100))) ∧
    calculate_us_market_trend 100 0 = some 50 ∧
    us_calculate_junk_bond_score 0 5 1 1 = 50 := by
  refine ⟨?_, ?_, ?_, ?_⟩
  · intro price
    simp [MADeviationIndicator_calculate]
  · intro price ma_50 h
    simp [MADeviationIndicator_calculate, h]
  · norm_num [calculate_us_market_trend]
  · norm_num [us_calculate_junk_bond_score, us_junk_score_of_diff]

/-- C5 witness: the amended statement applied at the concrete nonzero moving
average 200 with price 210, where the indicator returns the deviation score
normally. -/
theorem c5_zero_denominator_amended_witness :
    MADeviationIndicator_calculate 210 200 =
      some (ma_deviation_to_score ((210 - 200) / 200 * 100)) :=
  c5_zero_denominator_amended.2.1 210 200 (by norm_num)

/-- Embeds the sigmoid scoring of calculate_safe_haven_score in
src/eu_fear_greed_index/safe_haven_indicator.py lines 68-78 as a function of
the stock-minus-bond return difference: normalize by max_diff_scale = 5.0,
apply the logistic function, scale to 0-100 and clamp to the 5-95 band. -/
noncomputable def eu_safe_haven_score_of_diff (difference : ℝ) : ℝ :=
  max 5 (min 95 (1 / (1 + Real.exp (-(difference / 5))) * 100))

/-- C6: each cited scoring function is monotone non-decreasing in its
greed-favoring raw input: the MA deviation score in the deviation, the US
junk bond score in the return difference, and the EU safe haven sigmoid
score in the stock-minus-bond return difference. -/
theorem c6_monotone :
    (∀ x y : ℚ, x ≤ y → ma_deviation_to_score x ≤ ma_deviation_to_score y) ∧
    (∀ x y : ℚ, x ≤ y → us_junk_score_of_diff x ≤ us_junk_score_of_diff y) ∧
    (∀ x y : ℝ, x ≤ y →
      eu_safe_haven_score_of_diff x ≤ eu_safe_haven_score_of_diff y) := by
  refine ⟨?_, ?_, ?_⟩
  · intro x y h
    unfold ma_deviation_to_score
    split_ifs <;> linarith
  · intro x y h
    unfold us_junk_score_of_diff
    exact min_le_min (le_refl 100) (max_le_max (le_refl 0) (by linarith))
  · intro x y h
    unfold eu_safe_haven_score_of_diff
    have hexp : Real.exp (-(y / 5)) ≤ Real.exp (-(x / 5)) :=
      Real.exp_le_exp.mpr (by linarith)
    have hypos : 0 < 1 + Real.exp (-(y / 5)) := by positivity
    have hfrac : 1 / (1 + Real.exp (-(x / 5))) ≤ 1 / (1 + Real.exp (-(y / 5))) :=
      one_div_le_one_div_of_le hypos (by linarith)
    have hscaled := mul_le_mul_of_nonneg_right hfrac (by norm_num : (0:ℝ) ≤ 100)
    exact max_le_max (le_refl 5) (min_le_min (le_refl 95) hscaled)

/-- C6 witness: each monotonicity statement applied at the concrete pair of
inputs 0 and 1. -/
theorem c6_monotone_witness :
    ma_deviation_to_score 0 ≤ ma_deviation_to_score 1 ∧
    us_junk_score_of_diff 0 ≤ us_junk_score_of_diff 1 ∧
    eu_safe_haven_score_of_diff 0 ≤ eu_safe_haven_score_of_diff 1 :=
  ⟨c6_monotone.1 0 1 zero_le_one, c6_monotone.2.1 0 1 zero_le_one,
    c6_monotone.2.2 0 1 zero_le_one⟩

/-- C9: MomentumIndicator.calculate with index momentum 10 and RSI 50
returns exactly 75: base score 50 + 10 * 2.5 = 75 with no RSI nudge, since
50 is neither below 30 nor above 70. -/
theorem c9_momentum_scenario : momentum_calculate 10 50 = 75 := by
  norm_num [momentum_calculate]

/-- Embeds the per-asset score computation repeated inside calculate_momentum
in src/cn_fear_greed_index/momentum_indicator.py lines 24-35 (and the
analogous blocks below it): the base score 50 + momentum * 2.5 is clamped to
0-100 first, and only then nudged by the RSI rule. -/
def cn_calculate_momentum_asset_score (momentum rsi : ℚ) : ℚ :=
  if rsi < 30 then min 100 (min 100 (max 0 (50 + momentum * 2.5)) + 10)
  else if 70 < rsi then max 0 (min 100 (max 0 (50 + momentum * 2.5)) - 10)
  else min 100 (max 0 (50 + momentum * 2.5))

/-- Follows the words of claim C10: for RSI below 30 the score is
min(100, 50 + 2.5 m + 10), for RSI above 70 it is max(0, 50 + 2.5 m - 10),
otherwise 50 + 2.5 m, and the result is then clamped to 0-100. Stated
separately so the code can be compared against it. -/
def claimC10_score (m r : ℚ) : ℚ :=
  max 0 (min 100
    (if r < 30 then min 100 (50 + 2.5 * m + 10)
     else if 70 < r then max 0 (50 + 2.5 * m - 10)
     else 50 + 2.5 * m))

/-- C10 counterexample: at momentum -24 and RSI 20 the CN per-asset momentum
score is 10, while the formula min(100, 50 + 2.5 m + 10) clamped to 0-100
claimed for every momentum calculator gives 0: the CN variant clamps the
base score to 0-100 before applying the nudge. -/
theorem c10_nudge_counterexample :
    cn_calculate_momentum_asset_score (-24) 20 = 10 ∧
    claimC10_score (-24) 20 = 0 ∧
    cn_calculate_momentum_asset_score (-24) 20 ≠ claimC10_score (-24) 20 := by
  norm_num [cn_calculate_momentum_asset_score, claimC10_score]

/-- C10 amended: the claimed nudge formula holds exactly for
MomentumIndicator.calculate; the CN per-asset variant clamps the base score
to 0-100 before nudging and therefore differs for momentum outside the
-20 to 20 band. -/
theorem c10_nudge_amended :
    ∀ m r : ℚ, momentum_calculate m r = claimC10_score m r := by
  intro m r
  unfold momentum_calculate claimC10_score
  rw [mul_comm m (2.5 : ℚ)]

/-- Embeds the RSI-to-score mapping of calculate_us_rsi in
src/utils/fear_greed_calculator.py lines 509-520 (identical in
calculate_eu_rsi and calculate_cn_rsi) on the averaged RSI: four linear
pieces with breakpoints at 30, 50 and 70, then a clamp to 0-100. -/
def calculate_us_rsi_score (rsi : ℚ) : ℚ :=
  max 0 (min 100
    (if rsi ≤ 30 then rsi * (25 / 30)
     else if rsi ≤ 50 then 25 + (rsi - 30) * (20 / 20)
     else if rsi ≤ 70 then 55 + (rsi - 50) * (20 / 20)
     else 75 + (rsi - 70) * (25 / 30)))

/-- Embeds RSIIndicator.calculate from src/indicators/rsi_indicator.py lines
83-94 on the list of collected RSI values: an empty collection raises
ValueError (none); otherwise the average RSI is mapped directly to the score
(line 92) and clamped to 0-100. -/
def RSIIndicator_calculate (rsi_values : List ℚ) : Option ℚ :=
  if rsi_values.isEmpty then none
  else some (max 0 (min 100 (rsi_values.sum / rsi_values.length)))

/-- C7 counterexample: RSIIndicator.calculate maps the averaged RSI directly
to the score, so an average of 30 yields 30, not the 25 the claimed
piecewise remap would give for this variant. -/
theorem c7_rsi_remap_counterexample :
    RSIIndicator_calculate [30] = some 30 ∧ RSIIndicator_calculate [30] ≠ some 25 := by
  constructor <;> norm_num [RSIIndicator_calculate]

/-- C7 amended: the utils RSI calculators do apply the claimed
piecewise-linear remap: 30 maps to 25, 70 maps to 75, and the four segments
0-30, 30-50, 50-70 (left-open) and 70-100 (left-open) are mapped linearly
onto 0-25, 25-45, 55-75 and 75-100; RSIIndicator.calculate however returns
the clamped average RSI itself with no remap. -/
theorem c7_rsi_remap_amended :
    calculate_us_rsi_score 30 = 25 ∧
    calculate_us_rsi_score 70 = 75 ∧
    (∀ r : ℚ, 0 ≤ r → r ≤ 30 → calculate_us_rsi_score r = r * (25 / 30)) ∧
    (∀ r : ℚ, 30 ≤ r → r ≤ 50 → calculate_us_rsi_score r = 25 + (r - 30)) ∧
    (∀ r : ℚ, 50 < r → r ≤ 70 → calculate_us_rsi_score r = 55 + (r - 50)) ∧
    (∀ r : ℚ, 70 < r → r ≤ 100 → calculate_us_rsi_score r = 75 + (r - 70) * (25 / 30)) ∧
    (∀ l : List ℚ, l ≠ [] →
      RSIIndicator_calculate l = some (max 0 (min 100 (l.sum / l.length)))) := by
  refine ⟨by norm_num [calculate_us_rsi_score], by norm_num [calculate_us_rsi_score],
    ?_, ?_, ?_, ?_, ?_⟩
  · intro r h0 h30
    unfold calculate_us_rsi_score
    rw [if_pos h30, min_eq_right (by linarith), max_eq_right (by linarith)]
  · intro r h30 h50
    rcases eq_or_lt_of_le h30 with heq | hlt
    · unfold calculate_us_rsi_score
      rw [← heq]
      norm_num
    · unfold calculate_us_rsi_score
      rw [if_neg (by linarith), if_pos h50]
      have hval : 25 + (r - 30) * (20 / 20) = 25 + (r - 30) := by ring
      rw [hval, min_eq_right (by linarith), max_eq_right (by linarith)]
  · intro r h50 h70
    unfold calculate_us_rsi_score
    rw [if_neg (by linarith), if_neg (by linarith), if_pos h70]
    have hval : 55 + (r - 50) * (20 / 20) = 55 + (r - 50) := by ring
    rw [hval, min_eq_right (by linarith), max_eq_right (by linarith)]
  · intro r h70 h100
    unfold calculate_us_rsi_score
    rw [if_neg (by linarith), if_neg (by linarith), if_neg (by linarith),
      min_eq_right (by linarith), max_eq_right (by linarith)]
  · intro l h
    simp [RSIIndicator_calculate, h]

/-- C7 witness: the second segment of the remap applied at the concrete
averaged RSI 40, and the direct mapping of RSIIndicator.calculate applied at
the concrete value list containing 40 and 60. -/
theorem c7_rsi_remap_amended_witness :
    calculate_us_rsi_score 40 = 25 + (40 - 30) ∧
    RSIIndicator_calculate [40, 60] =
      some (max 0 (min 100 (([40, 60] : List ℚ).sum / ([40, 60] : List ℚ).length))) :=
  ⟨c7_rsi_remap_amended.2.2.2.1 40 (by norm_num) (by norm_num),
    c7_rsi_remap_amended.2.2.2.2.2.2 [40, 60] (by simp)⟩

/-- Embeds the percentile branch of calculate_volatility in
src/cn_fear_greed_index/volatility_indicator.py lines 41-47: count the
historical values strictly below the current one, divide by the length of
the history, and return 100 minus that percentile times 100. -/
def cn_calculate_volatility_percentile (current_vol : ℚ) (historical_data : List ℚ) : ℚ :=
  100 - ((historical_data.filter (fun val => val < current_vol)).length : ℚ) /
    (historical_data.length : ℚ) * 100

/-- Helper: when every element of the history is at most the current value,
the elements strictly below it and the elements equal to it partition the
history. -/
theorem cn_filter_lt_add_eq_length (c : ℚ) :
    ∀ h : List ℚ, (∀ v ∈ h, v ≤ c) →
      (h.filter (fun v => v < c)).length + (h.filter (fun v => v = c)).length = h.length := by
  intro h
  induction h with
  | nil => simp
  | cons a t ih =>
    intro hv
    have ha : a ≤ c := hv a (List.mem_cons_self a t)
    have ht : ∀ v ∈ t, v ≤ c := fun v hvt => hv v (List.mem_cons_of_mem a hvt)
    have hrec := ih ht
    rcases lt_or_eq_of_le ha with hlt | heq
    · have hne : a ≠ c := ne_of_lt hlt
      simp only [List.filter_cons, decide_eq_true_eq]
      rw [if_pos hlt, if_neg hne]
      simp only [List.length_cons]
      omega
    · simp only [List.filter_cons, decide_eq_true_eq]
      rw [if_neg (by rw [heq]; exact lt_irrefl c), if_pos heq]
      simp only [List.length_cons]
      omega

/-- Embeds the absolute-level part of calculate_eu_volatility_indicator in
src/eu_fear_greed_index/volatility_indicator.py lines 77-84: annualized
volatility at or below the low threshold 0.15 gives 100, at or above the
high threshold 0.30 gives 0, otherwise linear interpolation between the
thresholds. -/
def eu_abs_vol_score (latest_rolling_vol : ℚ) : ℚ :=
  if latest_rolling_vol ≤ 0.15 then 100
  else if 0.30 ≤ latest_rolling_vol then 0
  else 100 - (latest_rolling_vol - 0.15) / (0.30 - 0.15) * 100

/-- Embeds the scoring of calculate_eu_volatility_indicator in
src/eu_fear_greed_index/volatility_indicator.py lines 68-91 on the latest
rolling volatility and the historical rolling volatility series: the
percentile is the fraction of historical values strictly below the latest
one (line 70), pct_score is (1 - percentile) * 100 (line 87), the returned
score blends 60 percent absolute-level score with 40 percent pct_score
(line 90) and is clipped to 0-100 (line 91). -/
def calculate_eu_volatility_indicator (latest_rolling_vol : ℚ) (rolling_vol : List ℚ) : ℚ :=
  min 100 (max 0 (0.6 * eu_abs_vol_score latest_rolling_vol +
    0.4 * ((1 - ((rolling_vol.filter (fun v => v < latest_rolling_vol)).length : ℚ) /
      (rolling_vol.length : ℚ)) * 100)))

/-- Helper: the EU absolute-level volatility score always lies in 0-100. -/
theorem eu_abs_vol_score_bounds (c : ℚ) :
    0 ≤ eu_abs_vol_score c ∧ eu_abs_vol_score c ≤ 100 := by
  unfold eu_abs_vol_score
  split_ifs with h1 h2 <;> constructor <;> norm_num <;> linarith

/-- C8 amended: for the CN percentile score, when the current volatility
equals the minimum of a nonempty historical series the score is exactly 100,
and when it equals the maximum the score is 100 times the number of
historical values equal to the maximum divided by the length of the series
(so 100 divided by the length when the maximum is unique), not exactly 0.
The EU volatility indicator does not round-trip at all: its returned score
blends the percentile with the absolute-level score 60/40, so at the series
minimum it returns 0.6 times the absolute score plus 40 (equal to 100 only
when the absolute score is itself 100), and at the series maximum it returns
0.6 times the absolute score plus 0.4 times the CN-style maximum residue. -/
theorem c8_percentile_amended :
    (∀ (c : ℚ) (h : List ℚ), h ≠ [] → (∀ v ∈ h, c ≤ v) →
      cn_calculate_volatility_percentile c h = 100) ∧
    (∀ (c : ℚ) (h : List ℚ), h ≠ [] → (∀ v ∈ h, v ≤ c) →
      cn_calculate_volatility_percentile c h =
        100 * ((h.filter (fun v => v = c)).length : ℚ) / (h.length : ℚ)) ∧
    (∀ (c : ℚ) (h : List ℚ), h ≠ [] → (∀ v ∈ h, c ≤ v) →
      calculate_eu_volatility_indicator c h = 0.6 * eu_abs_vol_score c + 40) ∧
    (∀ (c : ℚ) (h : List ℚ), h ≠ [] → (∀ v ∈ h, v ≤ c) →
      calculate_eu_volatility_indicator c h = 0.6 * eu_abs_vol_score c +
        0.4 * (100 * ((h.filter (fun v => v = c)).length : ℚ) / (h.length : ℚ))) := by
  refine ⟨?_, ?_, ?_, ?_⟩
  · intro c h hne hmin
    have hfil : h.filter (fun v => v < c) = [] := by
      rw [List.filter_eq_nil_iff]
      intro v hv
      simpa using not_lt.mpr (hmin v hv)
    unfold cn_calculate_volatility_percentile
    rw [hfil]
    norm_num
  · intro c h hne hmax
    have key : ((h.filter (fun v => v < c)).length : ℚ) +
        ((h.filter (fun v => v = c)).length : ℚ) = (h.length : ℚ) := by
      exact_mod_cast cn_filter_lt_add_eq_length c h hmax
    have hn : (0 : ℚ) < (h.length : ℚ) := by
      exact_mod_cast List.length_pos.mpr hne
    unfold cn_calculate_volatility_percentile
    field_simp
    linarith
  · intro c h hne hmin
    have hfil : h.filter (fun v => v < c) = [] := by
      rw [List.filter_eq_nil_iff]
      intro v hv
      simpa using not_lt.mpr (hmin v hv)
    obtain ⟨hb0, hb1⟩ := eu_abs_vol_score_bounds c
    unfold calculate_eu_volatility_indicator
    rw [hfil]
    simp only [List.length_nil, Nat.cast_zero, zero_div]
    rw [max_eq_right (by linarith), min_eq_right (by linarith)]
    ring
  · intro c h hne hmax
    have key : ((h.filter (fun v => v < c)).length : ℚ) +
        ((h.filter (fun v => v = c)).length : ℚ) = (h.length : ℚ) := by
      exact_mod_cast cn_filter_lt_add_eq_length c h hmax
    have hn : (0 : ℚ) < (h.length : ℚ) := by
      exact_mod_cast List.length_pos.mpr hne
    have hble : ((h.filter (fun v => v < c)).length : ℚ) ≤ (h.length : ℚ) := by
      exact_mod_cast List.length_filter_le _ h
    have hb0 : (0 : ℚ) ≤ ((h.filter (fun v => v < c)).length : ℚ) := by positivity
    have hpct0 : (0 : ℚ) ≤
        (1 - ((h.filter (fun v => v < c)).length : ℚ) / (h.length : ℚ)) * 100 := by
      have : ((h.filter (fun v => v < c)).length : ℚ) / (h.length : ℚ) ≤ 1 :=
        (div_le_one hn).mpr hble
      linarith
    have hpct1 : (1 - ((h.filter (fun v => v < c)).length : ℚ) / (h.length : ℚ)) * 100
        ≤ 100 := by
      have : (0 : ℚ) ≤ ((h.filter (fun v => v < c)).length : ℚ) / (h.length : ℚ) :=
        div_nonneg hb0 (le_of_lt hn)
      linarith
    obtain ⟨ha0, ha1⟩ := eu_abs_vol_score_bounds c
    unfold calculate_eu_volatility_indicator
    rw [max_eq_right (by linarith), min_eq_right (by linarith)]
    have hpq : (1 - ((h.filter (fun v => v < c)).length : ℚ) / (h.length : ℚ)) * 100 =
        100 * ((h.filter (fun v => v = c)).length : ℚ) / (h.length : ℚ) := by
      field_simp
      linarith
    rw [hpq]

/-- C8 witness: the CN minimum side applied with current value 1 against the
history 1, 2, 3 (score exactly 100), the CN maximum side applied with
current value 3 against the same history (score 100 times one third), and
the EU minimum side applied with latest rolling volatility 1 against the
same history. -/
theorem c8_percentile_amended_witness :
    cn_calculate_volatility_percentile 1 [1, 2, 3] = 100 ∧
    cn_calculate_volatility_percentile 3 [1, 2, 3] =
      100 * ((([1, 2, 3] : List ℚ).filter (fun v => v = 3)).length : ℚ) /
        (([1, 2, 3] : List ℚ).length : ℚ) ∧
    calculate_eu_volatility_indicator 1 [1, 2, 3] = 0.6 * eu_abs_vol_score 1 + 40 :=
  ⟨c8_percentile_amended.1 1 [1, 2, 3] (by simp) (by decide),
    c8_percentile_amended.2.1 3 [1, 2, 3] (by simp) (by decide),
    c8_percentile_amended.2.2.1 1 [1, 2, 3] (by simp) (by decide)⟩

/-- C8 counterexample: with history 5, 10 and current value 10 the current
value equals the maximum of the series, yet the CN percentile score is 50
(half of the scale), not 0 within any tolerance; and with rolling
volatility history 0.35, 0.40 and latest value 0.35 the latest value equals
the minimum of the series, yet the EU volatility indicator returns 40, not
100 within any tolerance, because the absolute-level part of its blend is 0
there. -/
theorem c8_percentile_counterexample :
    ((∀ v ∈ ([5, 10] : List ℚ), v ≤ 10) ∧
      cn_calculate_volatility_percentile 10 [5, 10] = 50) ∧
    ((∀ v ∈ ([0.35, 0.40] : List ℚ), (0.35 : ℚ) ≤ v) ∧
      calculate_eu_volatility_indicator 0.35 [0.35, 0.40] = 40) := by
  refine ⟨⟨by decide, ?_⟩, ⟨by norm_num, ?_⟩⟩
  · norm_num [cn_calculate_volatility_percentile, List.filter]
  · norm_num [calculate_eu_volatility_indicator, eu_abs_vol_score, List.filter]
